import Mathlib

/-!
Shallow embedding of `src/main.py`, a FastAPI task manager backed by a
MongoDB document store, a Redis cache (single global key `"tasks"` with a
60-second TTL) and JWT cookie sessions.

Modelling conventions:

* MongoDB collections (`db.users`, `db.tasks`) are Lean lists of documents,
  in insertion order; `insert_one` appends.
* BSON `_id` values are typed: `insert_one` with no explicit `_id` generates
  an `ObjectId`, while the `task_id` path parameter used by the update and
  delete handlers is a plain string.  BSON equality is type-sensitive, so an
  `ObjectId` never compares equal to a string.  The inductive `BsonId`
  captures exactly this.  `str(ObjectId)` (the hex rendering) is abstracted
  by the injective `oidToString`.
* `datetime.utcnow()` values are modelled as `Nat` seconds; handlers that
  read the clock take `now : Nat` explicitly.  `datetime.isoformat` is
  abstracted by the injective rendering `isoformat`.
* The Redis value under `"tasks"` is `json.dumps` of the serialized task
  list; `json.dumps`/`json.loads` round-trip, so the cache holds the
  structured `List TaskOut` directly, together with its absolute expiry
  instant (`setex key 60 v` stores expiry `now + 60`).  `json.dumps` of a
  list is never the empty string, so Python truthiness of the cached value
  coincides with presence of a live entry.
* `pwd_context.hash` (bcrypt) is abstracted by the function `bcryptHash`,
  and `pwd_context.verify p h` by the check `h == bcryptHash p`.
* A JWT on the wire is its decoded shape: claims `{sub, exp}` plus a
  signature over them; `jwt.encode` signs with `SECRET_KEY`, and
  `jwt.decode` (PyJWT) first verifies the signature, then rejects with
  `ExpiredSignatureError` when `exp <= now`.
-/

namespace TaskApp

/-! ## Enums and schemas (`StatusEnum`, `PriorityEnum`, `TaskSchema`, `User`) -/

inductive StatusEnum where
  | pending
  | completed
deriving DecidableEq, Repr

inductive PriorityEnum where
  | low
  | medium
  | high
deriving DecidableEq, Repr

/-- Request body of POST/PUT task endpoints (class `TaskSchema`). -/
structure TaskSchema where
  title : String
  description : Option String
  status : StatusEnum
  priority : PriorityEnum
deriving DecidableEq, Repr

/-- Request body of register/login (class `User`). -/
structure UserReq where
  username : String
  password : String
deriving DecidableEq, Repr

/-! ## BSON identifiers and stored documents -/

/-- A BSON value usable in the `_id` field: either a store-generated
`ObjectId` or a plain string.  BSON equality is type-sensitive. -/
inductive BsonId where
  | oid (n : Nat)
  | str (s : String)
deriving DecidableEq, Repr

/-- `str(ObjectId)`: the 24-hex-digit rendering, abstracted injectively. -/
def oidToString (n : Nat) : String :=
  "0bjectid" ++ toString n

/-- `str` applied to a stored `_id` (the per-element conversion done by
`get_tasks` before caching). -/
def bsonIdToString : BsonId → String
  | .oid n => oidToString n
  | .str s => s

/-- `datetime.isoformat`, abstracted injectively. -/
def isoformat (t : Nat) : String :=
  "1970-01-01T+" ++ toString t

/-- A document of the `tasks` collection: the `TaskSchema` fields plus the
server-set `created_at` and the store `_id`. -/
structure TaskDoc where
  id : BsonId
  title : String
  description : Option String
  status : StatusEnum
  priority : PriorityEnum
  created_at : Nat
deriving DecidableEq, Repr

/-- A task as serialized by `get_tasks` (and cached): `_id` and
`created_at` converted to strings. -/
structure TaskOut where
  id : String
  title : String
  description : Option String
  status : StatusEnum
  priority : PriorityEnum
  created_at : String
deriving DecidableEq, Repr

/-- A document of the `users` collection (`user.dict()` after the password
field was overwritten with its hash). -/
structure UserDoc where
  username : String
  password : String
deriving DecidableEq, Repr

/-! ## Password hashing (`pwd_context`) -/

/-- `pwd_context.hash` (bcrypt), abstracted as a deterministic digest.  The
marker in front makes the digest distinct from the plaintext. -/
def bcryptHash (p : String) : String :=
  "$2b$12$" ++ p

/-- `pwd_context.verify plain stored`. -/
def pwdVerify (p h : String) : Bool :=
  h == bcryptHash p

/-! ## JWT (`create_jwt_token`, `jwt.decode`) -/

def SECRET_KEY : String := "your-secret-key"

def ACCESS_TOKEN_EXPIRE_HOURS : Nat := 1

/-- Rendering of the optional `sub` claim used inside the signature. -/
def subRepr : Option String → String
  | none => "-"
  | some s => "+" ++ s

/-- The HMAC-SHA256 signature over the claim set, abstracted as a
deterministic function of the claims and the key. -/
def jwtSign (sub : Option String) (exp : Nat) (key : String) : String :=
  "HS256." ++ key ++ "." ++ subRepr sub ++ "." ++ toString exp

/-- A JWT in decoded shape: claims plus signature. -/
structure JwtToken where
  sub : Option String
  exp : Nat
  sig : String
deriving DecidableEq, Repr

/-- `create_jwt_token`: claims `{sub: username, exp: now + 1 hour}` signed
with `SECRET_KEY`. -/
def create_jwt_token (username : String) (now : Nat) : JwtToken :=
  let exp := now + ACCESS_TOKEN_EXPIRE_HOURS * 3600
  { sub := some username, exp := exp, sig := jwtSign (some username) exp SECRET_KEY }

inductive DecodeResult where
  | ok (sub : Option String)
  | expiredSignatureError
  | invalidTokenError
deriving DecidableEq, Repr

/-- `jwt.decode(token, SECRET_KEY, algorithms=[ALGORITHM])`: PyJWT verifies
the signature first, then rejects with `ExpiredSignatureError` when
`exp <= now`. -/
def jwt_decode (t : JwtToken) (key : String) (now : Nat) : DecodeResult :=
  if t.sig ≠ jwtSign t.sub t.exp key then .invalidTokenError
  else if t.exp ≤ now then .expiredSignatureError
  else .ok t.sub

/-- Outcome of a dependency / handler that can raise `HTTPException`. -/
inductive AuthResult where
  | ok (username : String)
  | httpError (status : Nat) (detail : String)
deriving DecidableEq, Repr

/-- `get_current_user`: reads the `access_token` cookie (modelled in decoded
shape), decodes it, and extracts the `sub` claim. -/
def get_current_user (cookie : Option JwtToken) (now : Nat) : AuthResult :=
  match cookie with
  | none => .httpError 401 "Not authenticated"
  | some token =>
    match jwt_decode token SECRET_KEY now with
    | .expiredSignatureError => .httpError 401 "Token expired"
    | .invalidTokenError => .httpError 401 "Invalid token"
    | .ok none => .httpError 401 "Invalid token"
    | .ok (some username) => .ok username

/-! ## Application state: the two collections, the Redis key, the ObjectId
generator -/

/-- The live entry under the Redis key `"tasks"`: the cached serialized
list and the absolute instant at which it expires. -/
structure CacheEntry where
  value : List TaskOut
  expiresAt : Nat
deriving DecidableEq, Repr

structure AppState where
  users : List UserDoc
  tasks : List TaskDoc
  cache : Option CacheEntry
  nextOid : Nat
deriving DecidableEq, Repr

/-- `redis_client.get("tasks")`: a live (unexpired) entry, if any. -/
def redis_get (s : AppState) (now : Nat) : Option (List TaskOut) :=
  match s.cache with
  | some e => if now < e.expiresAt then some e.value else none
  | none => none

/-- `redis_client.setex("tasks", 60, v)`. -/
def redis_setex (s : AppState) (now ttl : Nat) (v : List TaskOut) : AppState :=
  { s with cache := some ⟨v, now + ttl⟩ }

/-- `redis_client.delete("tasks")`. -/
def redis_delete (s : AppState) : AppState :=
  { s with cache := none }

/-! ## Store primitives -/

/-- `db.users.find_one({"username": username})`. -/
def find_one_user (username : String) (l : List UserDoc) : Option UserDoc :=
  l.find? (fun u => u.username == username)

/-- The `$set` document of the update handler applied to a task document:
`task.dict()` replaces title, description, status and priority. -/
def setFields (t : TaskSchema) (d : TaskDoc) : TaskDoc :=
  { d with title := t.title, description := t.description,
           status := t.status, priority := t.priority }

/-- `db.tasks.update_one({"_id": task_id}, {"$set": task.dict()})` where
`task_id` is the raw string path parameter.  Returns the new collection,
`matched_count` and `modified_count`: at most the first matching document
is updated, and it counts as modified only if the `$set` changed it. -/
def update_one_tasks (task_id : String) (t : TaskSchema) :
    List TaskDoc → List TaskDoc × Nat × Nat
  | [] => ([], 0, 0)
  | d :: rest =>
    if d.id = BsonId.str task_id then
      (setFields t d :: rest, 1, if setFields t d = d then 0 else 1)
    else
      let r := update_one_tasks task_id t rest
      (d :: r.1, r.2.1, r.2.2)

/-- `db.tasks.delete_one({"_id": task_id})`: removes at most the first
matching document, returning the new collection and `deleted_count`. -/
def delete_one_tasks (task_id : String) :
    List TaskDoc → List TaskDoc × Nat
  | [] => ([], 0)
  | d :: rest =>
    if d.id = BsonId.str task_id then (rest, 1)
    else
      let r := delete_one_tasks task_id rest
      (d :: r.1, r.2)

/-- The Mongo equality filter built by `get_tasks` from the optional query
parameters. -/
def taskMatches (status : Option StatusEnum) (priority : Option PriorityEnum)
    (d : TaskDoc) : Bool :=
  (match status with | none => true | some v => d.status == v) &&
  (match priority with | none => true | some v => d.priority == v)

/-- The per-document serialization done by `get_tasks` before caching:
`_id` and `created_at` become strings. -/
def serializeTask (d : TaskDoc) : TaskOut :=
  { id := bsonIdToString d.id, title := d.title, description := d.description,
    status := d.status, priority := d.priority,
    created_at := isoformat d.created_at }

/-! ## HTTP results -/

/-- A handler outcome: a success body with its status code, or a raised
`HTTPException` with its status code and detail string. -/
inductive HttpRes (α : Type) where
  | ok (status : Nat) (body : α)
  | error (status : Nat) (detail : String)
deriving DecidableEq, Repr

def HttpRes.statusOf : HttpRes α → Nat
  | .ok st _ => st
  | .error st _ => st

/-- Body of a successful POST /tasks. -/
structure CreateBody where
  message : String
  task_id : String
deriving DecidableEq, Repr

/-- Body of a successful register/login. -/
structure AuthBody where
  message : String
  access_token : JwtToken
deriving DecidableEq, Repr

/-- The `access_token` cookie as set by register/login. -/
structure Cookie where
  key : String
  value : JwtToken
  httponly : Bool
  max_age : Nat
  samesite : String
deriving DecidableEq, Repr

/-- Outcome of register/login: the new state, the response, and the cookie
set on it (if any). -/
structure AuthOut where
  state : AppState
  res : HttpRes AuthBody
  cookie : Option Cookie
deriving DecidableEq, Repr

/-! ## Handlers -/

/-- `create_task` (POST /tasks): inserts the body with a server-set
`created_at` and a store-generated `ObjectId`, and returns the string form
of that id.  The cache invalidation in the source is commented out, so the
Redis key is untouched. -/
def create_task (task : TaskSchema) (now : Nat) (s : AppState) :
    AppState × HttpRes CreateBody :=
  let doc : TaskDoc :=
    { id := BsonId.oid s.nextOid, title := task.title,
      description := task.description, status := task.status,
      priority := task.priority, created_at := now }
  let s1 := { s with tasks := s.tasks ++ [doc], nextOid := s.nextOid + 1 }
  (s1, .ok 200 { message := "Task created", task_id := oidToString s.nextOid })

/-- `get_tasks` (GET /tasks): on a live cache entry returns it as-is;
otherwise filters the store by the supplied equality filters, takes the
first 100 matches, serializes them, caches the result for 60 seconds under
the shared key and returns it. -/
def get_tasks (status : Option StatusEnum) (priority : Option PriorityEnum)
    (now : Nat) (s : AppState) : AppState × List TaskOut :=
  match redis_get s now with
  | some cached => (s, cached)
  | none =>
    let tasks := ((s.tasks.filter (taskMatches status priority)).take 100).map serializeTask
    (redis_setex s now 60 tasks, tasks)

/-- `update_task` (PUT /tasks/{task_id}): runs `update_one` with the raw
string path parameter as `_id`, raises 404 when `modified_count == 0`, and
otherwise deletes the cache key and returns the success message. -/
def update_task (task_id : String) (task : TaskSchema) (s : AppState) :
    AppState × HttpRes String :=
  let r := update_one_tasks task_id task s.tasks
  let s1 := { s with tasks := r.1 }
  if r.2.2 = 0 then (s1, .error 404 "Task not found")
  else (redis_delete s1, .ok 200 "Task updated")

/-- `delete_task` (DELETE /tasks/{task_id}): runs `delete_one` with the raw
string path parameter as `_id`, raises 404 when `deleted_count == 0`, and
otherwise deletes the cache key and returns the success message. -/
def delete_task (task_id : String) (s : AppState) :
    AppState × HttpRes String :=
  let r := delete_one_tasks task_id s.tasks
  let s1 := { s with tasks := r.1 }
  if r.2 = 0 then (s1, .error 404 "Task not found")
  else (redis_delete s1, .ok 200 "Task deleted")

/-- `register` (POST /register): hashes the password, rejects an existing
username with 400, otherwise inserts the user, issues a token and sets the
cookie. -/
def register (user : UserReq) (now : Nat) (s : AppState) : AuthOut :=
  let hashed := bcryptHash user.password
  match find_one_user user.username s.users with
  | some _ => { state := s, res := .error 400 "Username already exists", cookie := none }
  | none =>
    let s1 := { s with users := s.users ++ [{ username := user.username, password := hashed }] }
    let token := create_jwt_token user.username now
    { state := s1,
      res := .ok 201 { message := "User registered successfully", access_token := token },
      cookie := some { key := "access_token", value := token, httponly := true,
                       max_age := ACCESS_TOKEN_EXPIRE_HOURS * 3600, samesite := "Lax" } }

/-- `login` (POST /login): 401 unless the username exists and the supplied
password verifies against the stored hash; otherwise issues a token and
sets the cookie. -/
def login (user : UserReq) (now : Nat) (s : AppState) : AuthOut :=
  match find_one_user user.username s.users with
  | none => { state := s, res := .error 401 "Invalid credentials", cookie := none }
  | some db_user =>
    if ¬ pwdVerify user.password db_user.password then
      { state := s, res := .error 401 "Invalid credentials", cookie := none }
    else
      let token := create_jwt_token user.username now
      { state := s,
        res := .ok 201 { message := "User logged in successfully", access_token := token },
        cookie := some { key := "access_token", value := token, httponly := true,
                         max_age := ACCESS_TOKEN_EXPIRE_HOURS * 3600, samesite := "Lax" } }

/-- `get_user` (GET /user): the only route with the `get_current_user`
dependency. -/
def get_user (cookie : Option JwtToken) (now : Nat) (s : AppState) :
    HttpRes String :=
  match get_current_user cookie now with
  | .httpError st d => .error st d
  | .ok username =>
    match find_one_user username s.users with
    | some _ => .ok 200 ("Hello " ++ username ++ ", welcome back!")
    | none => .ok 200 "User not found"

/-! ## Request-level dispatch

The routes of the app, each carrying the cookie jar of the incoming
request.  The four task handlers in the source declare no request or
dependency parameter, so they cannot read the cookie; only GET /user
declares the `get_current_user` dependency.  `handle` makes that explicit
at a uniform request level. -/

/-- Discriminator for the two `_id` shapes. -/
def isOid : BsonId → Bool
  | .oid _ => true
  | .str _ => false

def HttpRes.mapBody {α β : Type} (f : α → β) : HttpRes α → HttpRes β
  | .ok st b => .ok st (f b)
  | .error st d => .error st d

inductive ApiRequest where
  | createTask (body : TaskSchema) (cookie : Option JwtToken)
  | listTasks (status : Option StatusEnum) (priority : Option PriorityEnum)
      (cookie : Option JwtToken)
  | putTask (task_id : String) (body : TaskSchema) (cookie : Option JwtToken)
  | dropTask (task_id : String) (cookie : Option JwtToken)
  | userInfo (cookie : Option JwtToken)

inductive RespBody where
  | createB (b : CreateBody)
  | listB (l : List TaskOut)
  | msg (m : String)
deriving DecidableEq, Repr

def handle (r : ApiRequest) (now : Nat) (s : AppState) :
    AppState × HttpRes RespBody :=
  match r with
  | .createTask body _ =>
    let r := create_task body now s
    (r.1, r.2.mapBody .createB)
  | .listTasks st pr _ =>
    let r := get_tasks st pr now s
    (r.1, .ok 200 (.listB r.2))
  | .putTask tid body _ =>
    let r := update_task tid body s
    (r.1, r.2.mapBody .msg)
  | .dropTask tid _ =>
    let r := delete_task tid s
    (r.1, r.2.mapBody .msg)
  | .userInfo c =>
    (s, (get_user c now s).mapBody .msg)

/-! ## Helper lemmas -/

theorem update_one_tasks_allOid (tid : String) (t : TaskSchema) :
    ∀ l : List TaskDoc, (l.all fun d => isOid d.id) = true →
      update_one_tasks tid t l = (l, 0, 0) := by
  intro l
  induction l with
  | nil => intro _; rfl
  | cons d rest ih =>
    intro h
    rw [List.all_cons, Bool.and_eq_true] at h
    have hne : ¬ d.id = BsonId.str tid := by
      intro he
      rw [he] at h
      exact absurd h.1 (by simp [isOid])
    simp only [update_one_tasks, if_neg hne, ih h.2]

theorem delete_one_tasks_allOid (tid : String) :
    ∀ l : List TaskDoc, (l.all fun d => isOid d.id) = true →
      delete_one_tasks tid l = (l, 0) := by
  intro l
  induction l with
  | nil => intro _; rfl
  | cons d rest ih =>
    intro h
    rw [List.all_cons, Bool.and_eq_true] at h
    have hne : ¬ d.id = BsonId.str tid := by
      intro he
      rw [he] at h
      exact absurd h.1 (by simp [isOid])
    simp only [delete_one_tasks, if_neg hne, ih h.2]

theorem update_task_allOid (tid : String) (t : TaskSchema) (s : AppState)
    (hs : (s.tasks.all fun d => isOid d.id) = true) :
    update_task tid t s = (s, .error 404 "Task not found") := by
  unfold update_task
  rw [update_one_tasks_allOid tid t s.tasks hs]
  exact rfl

theorem delete_task_allOid (tid : String) (s : AppState)
    (hs : (s.tasks.all fun d => isOid d.id) = true) :
    delete_task tid s = (s, .error 404 "Task not found") := by
  unfold delete_task
  rw [delete_one_tasks_allOid tid s.tasks hs]
  exact rfl

theorem create_task_allOid (task : TaskSchema) (now : Nat) (s : AppState)
    (hs : (s.tasks.all fun d => isOid d.id) = true) :
    ((create_task task now s).1.tasks.all fun d => isOid d.id) = true := by
  have hdoc : (create_task task now s).1.tasks
      = s.tasks ++ [{ id := BsonId.oid s.nextOid, title := task.title,
                      description := task.description, status := task.status,
                      priority := task.priority, created_at := now }] := rfl
  rw [hdoc, List.all_append, hs]
  rfl

theorem update_one_tasks_find_none (tid : String) (t : TaskSchema) :
    ∀ l : List TaskDoc, l.find? (fun d => d.id == BsonId.str tid) = none →
      update_one_tasks tid t l = (l, 0, 0) := by
  intro l
  induction l with
  | nil => intro _; rfl
  | cons a rest ih =>
    intro h
    by_cases ha : a.id = BsonId.str tid
    · rw [List.find?_cons_of_pos _ (by simp [ha])] at h
      exact absurd h (by simp)
    · rw [List.find?_cons_of_neg _ (by simp [ha])] at h
      simp only [update_one_tasks, if_neg ha, ih h]

theorem update_one_tasks_find_some_eq (tid : String) (t : TaskSchema) :
    ∀ l : List TaskDoc, ∀ d, l.find? (fun x => x.id == BsonId.str tid) = some d →
      setFields t d = d → update_one_tasks tid t l = (l, 1, 0) := by
  intro l
  induction l with
  | nil => intro d h _; exact absurd h (by simp)
  | cons a rest ih =>
    intro d h heq
    by_cases ha : a.id = BsonId.str tid
    · rw [List.find?_cons_of_pos _ (by simp [ha])] at h
      have had : a = d := by injection h
      subst had
      simp [update_one_tasks, if_pos ha, heq]
    · rw [List.find?_cons_of_neg _ (by simp [ha])] at h
      simp only [update_one_tasks, if_neg ha, ih d h heq]

theorem update_one_tasks_find_some_ne (tid : String) (t : TaskSchema) :
    ∀ l : List TaskDoc, ∀ d, l.find? (fun x => x.id == BsonId.str tid) = some d →
      setFields t d ≠ d → (update_one_tasks tid t l).2.2 = 1 := by
  intro l
  induction l with
  | nil => intro d h _; exact absurd h (by simp)
  | cons a rest ih =>
    intro d h hne
    by_cases ha : a.id = BsonId.str tid
    · rw [List.find?_cons_of_pos _ (by simp [ha])] at h
      have had : a = d := by injection h
      subst had
      simp [update_one_tasks, if_pos ha, if_neg hne]
    · rw [List.find?_cons_of_neg _ (by simp [ha])] at h
      simp only [update_one_tasks, if_neg ha]
      exact ih d h hne

/-! ## Claim theorems -/

/-- C1: every task id generated by `create_task` is an `ObjectId` and the
handler returns its string form; but `update_task`/`delete_task` compare
the raw string path parameter against the stored `_id`, so on any state
whose task ids are all ObjectIds — an invariant `create_task` preserves —
every update or delete by string id (the id returned by create included)
fails with 404 and leaves the whole state, tasks included, unchanged. -/
theorem C1_returned_id_never_matches
    (task : TaskSchema) (now : Nat) (s : AppState)
    (hs : (s.tasks.all fun d => isOid d.id) = true) :
    (create_task task now s).2
        = .ok 200 { message := "Task created", task_id := oidToString s.nextOid }
    ∧ ((create_task task now s).1.tasks.all fun d => isOid d.id) = true
    ∧ (∀ tid t, update_task tid t s = (s, .error 404 "Task not found"))
    ∧ (∀ tid, delete_task tid s = (s, .error 404 "Task not found"))
    ∧ (∀ t, update_task (oidToString s.nextOid) t (create_task task now s).1
        = ((create_task task now s).1, .error 404 "Task not found"))
    ∧ delete_task (oidToString s.nextOid) (create_task task now s).1
        = ((create_task task now s).1, .error 404 "Task not found") := by
  have hall := create_task_allOid task now s hs
  refine ⟨rfl, hall, ?_, ?_, ?_, ?_⟩
  · intro tid t
    exact update_task_allOid tid t s hs
  · intro tid
    exact delete_task_allOid tid s hs
  · intro t
    exact update_task_allOid _ t _ hall
  · exact delete_task_allOid _ _ hall

/-- Closed instance of C1: on an initially empty store, updating or
deleting with the id string returned by create yields 404 and leaves the
state unchanged. -/
theorem C1_witness :
    delete_task (oidToString 0)
        (create_task ⟨"Buy milk", none, .pending, .low⟩ 5
          { users := [], tasks := [], cache := none, nextOid := 0 }).1
      = ((create_task ⟨"Buy milk", none, .pending, .low⟩ 5
          { users := [], tasks := [], cache := none, nextOid := 0 }).1,
         .error 404 "Task not found") :=
  (C1_returned_id_never_matches ⟨"Buy milk", none, .pending, .low⟩ 5
    { users := [], tasks := [], cache := none, nextOid := 0 } (by decide)).2.2.2.2.2

/-- C2: while a live cache entry exists, `get_tasks` returns exactly the
cached value, leaves the state unchanged, and the result is independent of
the status/priority filter arguments. -/
theorem C2_cache_hit_ignores_filters
    (status st2 : Option StatusEnum) (priority pr2 : Option PriorityEnum)
    (now : Nat) (s : AppState) (v : List TaskOut)
    (h : redis_get s now = some v) :
    get_tasks status priority now s = (s, v)
    ∧ get_tasks status priority now s = get_tasks st2 pr2 now s := by
  constructor
  · simp only [get_tasks, h]
  · simp only [get_tasks, h]

/-- Closed instance of C2: with a live cache entry, two calls with
different filters both return the cached value. -/
theorem C2_witness :
    get_tasks (some .pending) none 10
        { users := [], tasks := [],
          cache := some ⟨[⟨"x", "t", none, .completed, .high, "c"⟩], 50⟩,
          nextOid := 0 }
      = ({ users := [], tasks := [],
           cache := some ⟨[⟨"x", "t", none, .completed, .high, "c"⟩], 50⟩,
           nextOid := 0 }, [⟨"x", "t", none, .completed, .high, "c"⟩])
    ∧ get_tasks (some .pending) none 10
        { users := [], tasks := [],
          cache := some ⟨[⟨"x", "t", none, .completed, .high, "c"⟩], 50⟩,
          nextOid := 0 }
      = get_tasks none (some .low) 10
        { users := [], tasks := [],
          cache := some ⟨[⟨"x", "t", none, .completed, .high, "c"⟩], 50⟩,
          nextOid := 0 } :=
  C2_cache_hit_ignores_filters (some .pending) none none (some .low) 10
    _ _ (by decide)

/-- C4: `update_task` and `delete_task` clear the shared cache key exactly
on success; on the 404 path the cache is exactly what it was before. -/
theorem C4_mutations_invalidate_on_success
    (task_id : String) (task : TaskSchema) (s : AppState) :
    ((update_task task_id task s).2 = .ok 200 "Task updated" →
      (update_task task_id task s).1.cache = none)
    ∧ ((update_task task_id task s).2 = .error 404 "Task not found" →
      (update_task task_id task s).1.cache = s.cache)
    ∧ ((delete_task task_id s).2 = .ok 200 "Task deleted" →
      (delete_task task_id s).1.cache = none)
    ∧ ((delete_task task_id s).2 = .error 404 "Task not found" →
      (delete_task task_id s).1.cache = s.cache) := by
  refine ⟨?_, ?_, ?_, ?_⟩
  · by_cases h : (update_one_tasks task_id task s.tasks).2.2 = 0 <;>
      simp [update_task, h, redis_delete]
  · by_cases h : (update_one_tasks task_id task s.tasks).2.2 = 0 <;>
      simp [update_task, h, redis_delete]
  · by_cases h : (delete_one_tasks task_id s.tasks).2 = 0 <;>
      simp [delete_task, h, redis_delete]
  · by_cases h : (delete_one_tasks task_id s.tasks).2 = 0 <;>
      simp [delete_task, h, redis_delete]

/-- Closed instance of C4: a successful update (on a string-id document)
clears the cache, and a 404 delete leaves the cache entry in place. -/
theorem C4_witness :
    (update_task "a" ⟨"new", none, .completed, .high⟩
      { users := [],
        tasks := [⟨.str "a", "old", none, .pending, .low, 0⟩],
        cache := some ⟨[], 99⟩, nextOid := 0 }).1.cache = none
    ∧ (delete_task "zzz"
      { users := [],
        tasks := [⟨.str "a", "old", none, .pending, .low, 0⟩],
        cache := some ⟨[], 99⟩, nextOid := 0 }).1.cache
      = ({ users := [],
           tasks := [⟨.str "a", "old", none, .pending, .low, 0⟩],
           cache := some ⟨[], 99⟩, nextOid := 0 } : AppState).cache :=
  ⟨(C4_mutations_invalidate_on_success "a" ⟨"new", none, .completed, .high⟩
      { users := [],
        tasks := [⟨.str "a", "old", none, .pending, .low, 0⟩],
        cache := some ⟨[], 99⟩, nextOid := 0 }).1 (by decide),
   (C4_mutations_invalidate_on_success "zzz" ⟨"new", none, .completed, .high⟩
      { users := [],
        tasks := [⟨.str "a", "old", none, .pending, .low, 0⟩],
        cache := some ⟨[], 99⟩, nextOid := 0 }).2.2.2 (by decide)⟩

/-- C3 counterexample: a record matching the given identifier exists
(`matched_count` is 1, `find?` succeeds), yet `update_task` returns 404
NotFound, because the handler tests `modified_count` and the `$set`
changes nothing on this document.  So update does not fail exactly when
no record matched, and a matched record does not guarantee success. -/
theorem C3_counterexample :
    (update_one_tasks "a" ⟨"t", none, .pending, .low⟩
        [⟨.str "a", "t", none, .pending, .low, 0⟩]).2.1 = 1
    ∧ ([(⟨.str "a", "t", none, .pending, .low, 0⟩ : TaskDoc)].find?
        (fun d => d.id == BsonId.str "a")).isSome = true
    ∧ (update_task "a" ⟨"t", none, .pending, .low⟩
        { users := [], tasks := [⟨.str "a", "t", none, .pending, .low, 0⟩],
          cache := none, nextOid := 0 }).2
      = .error 404 "Task not found" := by
  decide

/-- C3 (amended): `update_task` fails with 404 exactly when Mongo's
`modified_count` is zero — that is, when no record's `_id` equals the raw
string identifier, or when the first matching record is left unchanged by
the `$set` payload; when a matching record's fields differ from the
payload, the update succeeds and returns the success message. -/
theorem C3_update_404_iff_nothing_modified
    (task_id : String) (task : TaskSchema) (s : AppState) :
    (s.tasks.find? (fun d => d.id == BsonId.str task_id) = none →
      update_task task_id task s = (s, .error 404 "Task not found"))
    ∧ (∀ d, s.tasks.find? (fun d => d.id == BsonId.str task_id) = some d →
        (setFields task d = d →
          update_task task_id task s = (s, .error 404 "Task not found"))
        ∧ (setFields task d ≠ d →
          (update_task task_id task s).2 = .ok 200 "Task updated")) := by
  refine ⟨?_, ?_⟩
  · intro h
    unfold update_task
    rw [update_one_tasks_find_none task_id task s.tasks h]
    exact rfl
  · intro d hfind
    refine ⟨?_, ?_⟩
    · intro heq
      unfold update_task
      rw [update_one_tasks_find_some_eq task_id task s.tasks d hfind heq]
      exact rfl
    · intro hne
      have h1 := update_one_tasks_find_some_ne task_id task s.tasks d hfind hne
      simp [update_task, h1]

/-- Closed instance of the amended C3: an unknown id yields 404 with the
state untouched, and an update that matches a record and changes its
fields succeeds. -/
theorem C3_witness :
    update_task "nope" ⟨"t", none, .pending, .low⟩
        { users := [], tasks := [], cache := none, nextOid := 0 }
      = ({ users := [], tasks := [], cache := none, nextOid := 0 },
         .error 404 "Task not found")
    ∧ (update_task "b" ⟨"new", none, .completed, .high⟩
        { users := [], tasks := [⟨.str "b", "old", none, .pending, .low, 0⟩],
          cache := none, nextOid := 0 }).2 = .ok 200 "Task updated" :=
  ⟨(C3_update_404_iff_nothing_modified "nope" ⟨"t", none, .pending, .low⟩
      { users := [], tasks := [], cache := none, nextOid := 0 }).1 (by decide),
   ((C3_update_404_iff_nothing_modified "b" ⟨"new", none, .completed, .high⟩
      { users := [], tasks := [⟨.str "b", "old", none, .pending, .low, 0⟩],
        cache := none, nextOid := 0 }).2
      ⟨.str "b", "old", none, .pending, .low, 0⟩ (by decide)).2 (by decide)⟩

/-- C6: on a cache miss `get_tasks` returns the first 100 store documents
matching the supplied equality filters, serialized (`_id` and `created_at`
as strings); it caches exactly that result under the shared key with
expiry `now + 60` — live for every instant strictly before `now + 60` and
gone from then on — and leaves the collections themselves unchanged. -/
theorem C6_cache_miss_populates
    (status : Option StatusEnum) (priority : Option PriorityEnum)
    (now : Nat) (s : AppState) (h : redis_get s now = none) :
    (get_tasks status priority now s).2
        = ((s.tasks.filter (taskMatches status priority)).take 100).map serializeTask
    ∧ (get_tasks status priority now s).1.cache
        = some ⟨(get_tasks status priority now s).2, now + 60⟩
    ∧ (∀ t2, t2 < now + 60 →
        redis_get (get_tasks status priority now s).1 t2
          = some (get_tasks status priority now s).2)
    ∧ (∀ t2, now + 60 ≤ t2 →
        redis_get (get_tasks status priority now s).1 t2 = none)
    ∧ (get_tasks status priority now s).1.tasks = s.tasks
    ∧ (get_tasks status priority now s).1.users = s.users := by
  have hg : get_tasks status priority now s
      = (redis_setex s now 60
          (((s.tasks.filter (taskMatches status priority)).take 100).map serializeTask),
         ((s.tasks.filter (taskMatches status priority)).take 100).map serializeTask) := by
    unfold get_tasks
    rw [h]
  rw [hg]
  refine ⟨rfl, rfl, ?_, ?_, rfl, rfl⟩
  · intro t2 ht
    simp [redis_setex, redis_get, ht]
  · intro t2 ht
    have hnl : ¬ t2 < now + 60 := by omega
    simp [redis_setex, redis_get, hnl]

/-- Closed instance of C6: a miss populates the cache with the returned
serialized list under expiry `0 + 60`. -/
theorem C6_witness :
    (get_tasks none none 0
        { users := [], tasks := [⟨.oid 0, "t", none, .pending, .low, 3⟩],
          cache := none, nextOid := 1 }).1.cache
      = some ⟨(get_tasks none none 0
          { users := [], tasks := [⟨.oid 0, "t", none, .pending, .low, 3⟩],
            cache := none, nextOid := 1 }).2, 0 + 60⟩ :=
  (C6_cache_miss_populates none none 0
    { users := [], tasks := [⟨.oid 0, "t", none, .pending, .low, 3⟩],
      cache := none, nextOid := 1 } (by decide)).2.1

/-- C5: `create_task` never touches the Redis key: the cache field (and
hence any later `redis_get`) is exactly as before the call. -/
theorem C5_create_preserves_cache (task : TaskSchema) (now : Nat) (s : AppState) :
    (create_task task now s).1.cache = s.cache
    ∧ ∀ t2, redis_get (create_task task now s).1 t2 = redis_get s t2 :=
  ⟨rfl, fun _ => rfl⟩

theorem jwt_decode_genuine (username : String) (t0 t : Nat) :
    jwt_decode (create_jwt_token username t0) SECRET_KEY t
      = if t0 + ACCESS_TOKEN_EXPIRE_HOURS * 3600 ≤ t then .expiredSignatureError
        else .ok (some username) := by
  unfold jwt_decode create_jwt_token
  simp

/-- C7: a token issued by `create_jwt_token` and presented in the cookie is
accepted by `get_current_user` (returning the same username) at any
instant strictly before issuance + 1 hour; from that instant on it is
rejected with 401 "Token expired"; and any token whose signature differs
from the genuine one is rejected with 401 "Invalid token". -/
theorem C7_token_lifecycle (username : String) (t0 t : Nat) :
    (t < t0 + ACCESS_TOKEN_EXPIRE_HOURS * 3600 →
      get_current_user (some (create_jwt_token username t0)) t = .ok username)
    ∧ (t0 + ACCESS_TOKEN_EXPIRE_HOURS * 3600 ≤ t →
      get_current_user (some (create_jwt_token username t0)) t
        = .httpError 401 "Token expired")
    ∧ (∀ sig2, sig2 ≠ (create_jwt_token username t0).sig →
      get_current_user (some { create_jwt_token username t0 with sig := sig2 }) t
        = .httpError 401 "Invalid token") := by
  refine ⟨?_, ?_, ?_⟩
  · intro hlt
    have h := jwt_decode_genuine username t0 t
    rw [if_neg (Nat.not_le.mpr hlt)] at h
    simp [get_current_user, h]
  · intro hle
    have h := jwt_decode_genuine username t0 t
    rw [if_pos hle] at h
    simp [get_current_user, h]
  · intro sig2 hne
    have hd : jwt_decode { create_jwt_token username t0 with sig := sig2 }
        SECRET_KEY t = .invalidTokenError := by
      unfold jwt_decode
      rw [if_pos]
      exact hne
    simp [get_current_user, hd]

/-- Closed instance of C7: a token issued at 0 is accepted at 10 (with the
issuing username), expired at 3600, and rejected as invalid with a
tampered signature. -/
theorem C7_witness :
    get_current_user (some (create_jwt_token "alice" 0)) 10 = .ok "alice"
    ∧ get_current_user (some (create_jwt_token "alice" 0)) 3600
        = .httpError 401 "Token expired"
    ∧ get_current_user (some { create_jwt_token "alice" 0 with sig := "bad" }) 10
        = .httpError 401 "Invalid token" :=
  ⟨(C7_token_lifecycle "alice" 0 10).1 (by decide),
   (C7_token_lifecycle "alice" 0 3600).2.1 (by decide),
   (C7_token_lifecycle "alice" 0 10).2.2 "bad" (by decide)⟩

theorem find_one_user_append_none (username : String) (l1 l2 : List UserDoc)
    (h : find_one_user username l1 = none) :
    find_one_user username (l1 ++ l2) = find_one_user username l2 := by
  unfold find_one_user at h ⊢
  rw [List.find?_append, h]
  simp

theorem register_exists_conflict (u2 : UserReq) (now2 : Nat) (st : AppState)
    (h : (find_one_user u2.username st.users).isSome = true) :
    (register u2 now2 st).res = .error 400 "Username already exists" := by
  cases hf : find_one_user u2.username st.users with
  | none => rw [hf] at h; simp at h
  | some w => simp [register, hf]

/-- C8: `register` rejects with 400 "Username already exists" exactly when
a user with that username is already stored; on a fresh username it
answers 201, issues the token and sets the cookie, and a second
registration of the same username (any password) on the resulting state is
rejected with 400. -/
theorem C8_register_conflict (u : UserReq) (now now2 : Nat) (s : AppState) :
    ((find_one_user u.username s.users).isSome = true ↔
      (register u now s).res = .error 400 "Username already exists")
    ∧ (find_one_user u.username s.users = none →
        (register u now s).res
          = .ok 201 { message := "User registered successfully",
                      access_token := create_jwt_token u.username now }
        ∧ (register u now s).cookie
          = some { key := "access_token", value := create_jwt_token u.username now,
                   httponly := true, max_age := ACCESS_TOKEN_EXPIRE_HOURS * 3600,
                   samesite := "Lax" }
        ∧ (∀ u2 : UserReq, u2.username = u.username →
            (register u2 now2 (register u now s).state).res
              = .error 400 "Username already exists")) := by
  constructor
  · cases hf : find_one_user u.username s.users with
    | none => simp [register, hf]
    | some w => simp [register, hf]
  · intro hf
    have hstate : (register u now s).state.users
        = s.users ++ [{ username := u.username, password := bcryptHash u.password }] := by
      simp [register, hf]
    refine ⟨by simp [register, hf], by simp [register, hf], ?_⟩
    intro u2 h2
    have hfind2 : find_one_user u2.username (register u now s).state.users
        = some { username := u.username, password := bcryptHash u.password } := by
      rw [hstate, h2, find_one_user_append_none _ _ _ hf]
      simp [find_one_user]
    exact register_exists_conflict u2 now2 _ (by rw [hfind2]; rfl)

/-- Closed instance of C8: registering "bob" twice on an empty store gives
201 then 400. -/
theorem C8_witness :
    (register ⟨"bob", "pw"⟩ 0
        { users := [], tasks := [], cache := none, nextOid := 0 }).res
      = .ok 201 { message := "User registered successfully",
                  access_token := create_jwt_token "bob" 0 }
    ∧ (register ⟨"bob", "other"⟩ 7
        (register ⟨"bob", "pw"⟩ 0
          { users := [], tasks := [], cache := none, nextOid := 0 }).state).res
      = .error 400 "Username already exists" :=
  ⟨((C8_register_conflict ⟨"bob", "pw"⟩ 0 7
      { users := [], tasks := [], cache := none, nextOid := 0 }).2 (by decide)).1,
   ((C8_register_conflict ⟨"bob", "pw"⟩ 0 7
      { users := [], tasks := [], cache := none, nextOid := 0 }).2 (by decide)).2.2
     ⟨"bob", "other"⟩ rfl⟩

/-- C9: a successful registration persists the bcrypt digest of the
password — never the plaintext, from which the digest always differs — and
a subsequent login with that username succeeds (201, fresh token) exactly
when the supplied password verifies against the stored digest. -/
theorem C9_password_hash (u : UserReq) (now : Nat) (s : AppState)
    (h : find_one_user u.username s.users = none) :
    (register u now s).state.users
        = s.users ++ [{ username := u.username, password := bcryptHash u.password }]
    ∧ bcryptHash u.password ≠ u.password
    ∧ (∀ p now2,
        ((login ⟨u.username, p⟩ now2 (register u now s).state).res
            = .ok 201 { message := "User logged in successfully",
                        access_token := create_jwt_token u.username now2 }
          ↔ pwdVerify p (bcryptHash u.password) = true)) := by
  have hstate : (register u now s).state.users
      = s.users ++ [{ username := u.username, password := bcryptHash u.password }] := by
    simp [register, h]
  refine ⟨hstate, ?_, ?_⟩
  · intro heq
    have hl := congrArg String.length heq
    rw [bcryptHash, String.length_append] at hl
    have h7 : ("$2b$12$" : String).length = 7 := by decide
    rw [h7] at hl
    omega
  · intro p now2
    have hfind2 : find_one_user u.username (register u now s).state.users
        = some { username := u.username, password := bcryptHash u.password } := by
      rw [hstate, find_one_user_append_none _ _ _ h]
      simp [find_one_user]
    rcases Bool.eq_false_or_eq_true (pwdVerify p (bcryptHash u.password)) with hv | hv <;>
      simp [login, hfind2, hv]

/-- Closed instance of C9: registering "carol" stores the digest, and a
login with the registered password succeeds since it verifies. -/
theorem C9_witness :
    (register ⟨"carol", "pw"⟩ 0
        { users := [], tasks := [], cache := none, nextOid := 0 }).state.users
      = [] ++ [{ username := "carol", password := bcryptHash "pw" }]
    ∧ ((login ⟨"carol", "pw"⟩ 3
        (register ⟨"carol", "pw"⟩ 0
          { users := [], tasks := [], cache := none, nextOid := 0 }).state).res
          = .ok 201 { message := "User logged in successfully",
                      access_token := create_jwt_token "carol" 3 }
        ↔ pwdVerify "pw" (bcryptHash "pw") = true) :=
  ⟨(C9_password_hash ⟨"carol", "pw"⟩ 0
      { users := [], tasks := [], cache := none, nextOid := 0 } (by decide)).1,
   (C9_password_hash ⟨"carol", "pw"⟩ 0
      { users := [], tasks := [], cache := none, nextOid := 0 } (by decide)).2.2 "pw" 3⟩

/-- C10: the four task routes are cookie-blind — state and response are
identical under any change of the session cookie — and never answer 401;
GET /user is the one route wired to `get_current_user`, and without a
cookie it answers 401 "Not authenticated". -/
theorem C10_tasks_ignore_session :
    (∀ body c c2 now s,
      handle (.createTask body c) now s = handle (.createTask body c2) now s)
    ∧ (∀ st pr c c2 now s,
      handle (.listTasks st pr c) now s = handle (.listTasks st pr c2) now s)
    ∧ (∀ tid body c c2 now s,
      handle (.putTask tid body c) now s = handle (.putTask tid body c2) now s)
    ∧ (∀ tid c c2 now s,
      handle (.dropTask tid c) now s = handle (.dropTask tid c2) now s)
    ∧ (∀ body c now s, (handle (.createTask body c) now s).2.statusOf ≠ 401)
    ∧ (∀ st pr c now s, (handle (.listTasks st pr c) now s).2.statusOf ≠ 401)
    ∧ (∀ tid body c now s, (handle (.putTask tid body c) now s).2.statusOf ≠ 401)
    ∧ (∀ tid c now s, (handle (.dropTask tid c) now s).2.statusOf ≠ 401)
    ∧ (∀ now s, handle (.userInfo none) now s
        = (s, .error 401 "Not authenticated")) := by
  refine ⟨fun _ _ _ _ _ => rfl, fun _ _ _ _ _ _ => rfl, fun _ _ _ _ _ _ => rfl,
    fun _ _ _ _ _ => rfl, ?_, ?_, ?_, ?_, fun _ _ => rfl⟩
  · intro body c now s
    simp [handle, create_task, HttpRes.mapBody, HttpRes.statusOf]
  · intro st pr c now s
    simp [handle, HttpRes.statusOf]
  · intro tid body c now s
    by_cases h : (update_one_tasks tid body s.tasks).2.2 = 0 <;>
      simp [handle, update_task, HttpRes.mapBody, HttpRes.statusOf, h]
  · intro tid c now s
    by_cases h : (delete_one_tasks tid s.tasks).2 = 0 <;>
      simp [handle, delete_task, HttpRes.mapBody, HttpRes.statusOf, h]

/-- Closed instance of C10: a PUT with no cookie and with a (bogus) cookie
behave identically, its status is not 401, and GET /user without a cookie
is 401. -/
theorem C10_witness :
    handle (.putTask "x" ⟨"t", none, .pending, .low⟩ none) 0
        { users := [], tasks := [], cache := none, nextOid := 0 }
      = handle (.putTask "x" ⟨"t", none, .pending, .low⟩
          (some { sub := some "eve", exp := 9, sig := "forged" })) 0
        { users := [], tasks := [], cache := none, nextOid := 0 }
    ∧ (handle (.putTask "x" ⟨"t", none, .pending, .low⟩ none) 0
        { users := [], tasks := [], cache := none, nextOid := 0 }).2.statusOf ≠ 401
    ∧ handle (.userInfo none) 0
        { users := [], tasks := [], cache := none, nextOid := 0 }
      = ({ users := [], tasks := [], cache := none, nextOid := 0 },
         .error 401 "Not authenticated") :=
  ⟨C10_tasks_ignore_session.2.2.1 "x" ⟨"t", none, .pending, .low⟩ none
      (some { sub := some "eve", exp := 9, sig := "forged" }) 0
      { users := [], tasks := [], cache := none, nextOid := 0 },
   C10_tasks_ignore_session.2.2.2.2.2.2.1 "x" ⟨"t", none, .pending, .low⟩ none 0
      { users := [], tasks := [], cache := none, nextOid := 0 },
   C10_tasks_ignore_session.2.2.2.2.2.2.2.2 0
      { users := [], tasks := [], cache := none, nextOid := 0 }⟩

end TaskApp
